import Mathlib

/-!
Verification of the VHP-vs-PHP benchmark runner (`bench/run_benchmarks.py`).

The measurement-and-comparison core of the runner is embedded shallowly:
wall-clock durations are rationals supplied by an `oracle` (the i-th trial of a
given file against a given binary), Python `statistics.mean` and float division
are partial functions returning `none` where Python raises, and the process-level
outcome of `main` is an explicit `RunExit` value.
-/

namespace Bench

/-- A Python `str` value, embedded as its sequence of characters. Comparison of
filenames is lexicographic, as for Python strings. -/
abbrev PyStr := List Char

/-- The two binaries under comparison: `VHP_BIN` (candidate) and `PHP_BIN`
(reference). -/
inductive Binary where
  | vhp
  | php
deriving DecidableEq, Repr

/-- The human-readable verdict printed by `benchmark_file`. -/
inductive Verdict where
  | Faster
  | Slower
deriving DecidableEq, Repr

/-- Model of `statistics.mean`: the arithmetic mean of the data; raises
`StatisticsError` (modelled as `none`) when the data is empty. -/
def mean (xs : List ℚ) : Option ℚ :=
  if xs.isEmpty then none else some (xs.sum / xs.length)

/-- Model of Python float division `a / b`: raises `ZeroDivisionError`
(modelled as `none`) when the divisor is zero. -/
def pydiv (a b : ℚ) : Option ℚ :=
  if b = 0 then none else some (a / b)

/-- Output of the speedup comparison inside `benchmark_file` (lines 88-96): the
`speedup` stored on the result dict, the printed verdict, and the printed
magnitude. -/
structure CompareOut where
  speedup : ℚ
  verdict : Verdict
  displayed : ℚ
deriving DecidableEq, Repr

/-- Lines 88-96 of `benchmark_file`:
`speedup = php_avg / vhp_avg if vhp_avg > 0 else 1.0`; if `speedup >= 1.0` the
verdict is "faster" with magnitude `speedup`, else `slowdown = vhp_avg / php_avg`
(unguarded Python division) with verdict "slower". `none` models the uncaught
`ZeroDivisionError` in the slower branch when `php_avg == 0`. -/
def compare (vhp_avg php_avg : ℚ) : Option CompareOut :=
  let speedup : ℚ := if vhp_avg > 0 then php_avg / vhp_avg else 1
  if speedup ≥ 1 then
    some ⟨speedup, Verdict.Faster, speedup⟩
  else
    match pydiv vhp_avg php_avg with
    | none => none
    | some slowdown => some ⟨speedup, Verdict.Slower, slowdown⟩

/-- One trial event: `run_benchmark(bench_file, binary)` was invoked once. -/
structure TrialEvent where
  file : PyStr
  binary : Binary
deriving DecidableEq, Repr

/-- One measurement phase of `benchmark_file`: the `for _ in range(ITERATIONS)`
loop (lines 69-72 resp. 78-81) that appends one timed sample per trial.
`oracle file b i` is the duration in milliseconds the i-th trial measures.
Returns the collected sample list and the trace of trial events in execution
order. -/
def runPhase (oracle : PyStr → Binary → ℕ → ℚ) (file : PyStr) (b : Binary)
    (n : ℕ) : List ℚ × List TrialEvent :=
  (List.range n).foldl
    (fun acc i => (acc.1 ++ [oracle file b i], acc.2 ++ [⟨file, b⟩]))
    ([], [])

/-- The sample-aggregation step of `benchmark_file` for one `(file, binary)`
pair (lines 66-86): run the trial loop and reduce the collected samples with
`statistics.mean`. -/
def aggregate (oracle : PyStr → Binary → ℕ → ℚ) (file : PyStr) (b : Binary)
    (iterations : ℕ) : Option ℚ :=
  mean (runPhase oracle file b iterations).1

/-- Model of `os.path.splitext(p)[0]` for a bare filename: strip the final
extension, treating leading dots as part of the root. -/
def splitextRoot (s : PyStr) : PyStr :=
  let lead := (s.takeWhile (fun c => c = '.')).length
  let ext := (s.reverse.takeWhile (fun c => c ≠ '.')).length
  if ext = s.length then s
  else if s.length - ext - 1 < lead then s
  else s.take (s.length - ext - 1)

/-- One row of the final report: the dict returned by `benchmark_file`
(lines 104-109). -/
structure BenchResult where
  name : PyStr
  vhp : ℚ
  php : ℚ
  speedup : ℚ
deriving DecidableEq, Repr

/-- `benchmark_file` (lines 60-109): run `ITERATIONS` VHP trials, then
`ITERATIONS` PHP trials, average each sample list with `statistics.mean`,
compare the averages, and return the result dict. `none` models an uncaught
exception (empty-data mean or zero division in the comparison); the trace
records every trial in execution order. -/
def benchmark_file (oracle : PyStr → Binary → ℕ → ℚ) (iterations : ℕ)
    (file : PyStr) : Option BenchResult × List TrialEvent :=
  let vhpPhase := runPhase oracle file Binary.vhp iterations
  let phpPhase := runPhase oracle file Binary.php iterations
  let trace := vhpPhase.2 ++ phpPhase.2
  match mean vhpPhase.1, mean phpPhase.1 with
  | some vhp_avg, some php_avg =>
    match compare vhp_avg php_avg with
    | some out => (some ⟨splitextRoot file, vhp_avg, php_avg, out.speedup⟩, trace)
    | none => (none, trace)
  | _, _ => (none, trace)

/-- Benchmark discovery (line 166): `sorted(Path(BENCH_DIR).glob('*.php'))`.
From the directory listing (in arbitrary filesystem order), keep the filenames
ending in `.php` - pathlib's `glob`, unlike the `glob` module, matches hidden
dot-prefixed files too, so no further filtering happens - and sort them
lexicographically. Sorting with a total, antisymmetric, transitive order
determines the output uniquely, so any correct sort embeds Python's
`sorted`. -/
def discover (listing : List PyStr) : List PyStr :=
  List.insertionSort (fun a b => a ≤ b)
    (listing.filter (fun f => ".php".toList.isSuffixOf f))

/-- The driver loop of `main` (lines 173-176): run `benchmark_file` on each
discovered file in order, appending each result dict to `results`. A `none`
from `benchmark_file` is an uncaught exception: it aborts the loop, so later
files never run. -/
def runAll (oracle : PyStr → Binary → ℕ → ℚ) (iterations : ℕ) :
    List PyStr → Option (List BenchResult) × List TrialEvent
  | [] => (some [], [])
  | f :: fs =>
    let fr := benchmark_file oracle iterations f
    match fr.1 with
    | none => (none, fr.2)
    | some r =>
      let rest := runAll oracle iterations fs
      (rest.1.map (fun rs => r :: rs), fr.2 ++ rest.2)

/-- The overall-average computation of `print_summary` (lines 134-137):
`avg_vhp = mean(vhp column)`, `avg_php = mean(php column)`,
`overall_speedup = avg_php / avg_vhp` with no zero guard. `none` models the
uncaught `StatisticsError` (empty results) or `ZeroDivisionError`
(`avg_vhp == 0`). -/
def print_summary_ratio (results : List BenchResult) : Option ℚ := do
  let avg_vhp ← mean (results.map (fun r => r.vhp))
  let avg_php ← mean (results.map (fun r => r.php))
  pydiv avg_php avg_vhp

/-- Mean of the per-file speedup column: the aggregation the spec says the
summary must NOT use. Stated from the spec for comparison with
`print_summary_ratio`. -/
def meanOfRatios (results : List BenchResult) : Option ℚ :=
  mean (results.map (fun r => r.speedup))

/-- How one run of `main` terminates. -/
inductive RunExit where
  | exitFatal (msg : String)
  | uncaught
  | success (results : List BenchResult) (overall : ℚ)
deriving DecidableEq, Repr

/-- `main` (lines 147-181), measurement core only: discover the corpus; if no
benchmark files are found, print a diagnostic and exit with status 1
(`exitFatal`); otherwise run every file in discovery order and compute the
summary. Any uncaught Python exception terminates the process with a traceback
and a non-zero status (`uncaught`). -/
def main_run (oracle : PyStr → Binary → ℕ → ℚ) (iterations : ℕ)
    (listing : List PyStr) : RunExit :=
  let bench_files := discover listing
  if bench_files.isEmpty then
    RunExit.exitFatal "No benchmark files found in bench"
  else
    match (runAll oracle iterations bench_files).1 with
    | none => RunExit.uncaught
    | some results =>
      match print_summary_ratio results with
      | none => RunExit.uncaught
      | some overall => RunExit.success results overall

/-! Helper lemmas. -/

/-- The trial loop of one phase collects the n oracle samples in index order and
emits one trial event per iteration. -/
theorem runPhase_eq (oracle : PyStr → Binary → ℕ → ℚ) (file : PyStr)
    (b : Binary) (n : ℕ) :
    runPhase oracle file b n =
      ((List.range n).map (oracle file b), List.replicate n ⟨file, b⟩) := by
  induction n with
  | zero => rfl
  | succ k ih =>
    simp only [runPhase] at ih ⊢
    rw [List.range_succ, List.foldl_append, ih]
    simp [List.range_succ, List.replicate_succ']

/-- On non-empty data, `statistics.mean` returns sum over length. -/
theorem mean_of_ne_nil {xs : List ℚ} (h : xs ≠ []) :
    mean xs = some (xs.sum / xs.length) := by
  simp [mean, h]

/-- A successful `benchmark_file` names its result row after the benchmark file,
extension stripped. -/
theorem benchmark_file_name {oracle : PyStr → Binary → ℕ → ℚ} {n : ℕ}
    {file : PyStr} {r : BenchResult} {tr : List TrialEvent}
    (h : benchmark_file oracle n file = (some r, tr)) :
    r.name = splitextRoot file := by
  simp only [benchmark_file] at h
  split at h
  · split at h
    · simp only [Prod.mk.injEq, Option.some.injEq] at h
      rw [← h.1]
    · simp at h
  · simp at h

/-- A successful driver loop produces one result row per file, named in file
order. -/
theorem runAll_names (oracle : PyStr → Binary → ℕ → ℚ) (n : ℕ)
    (files : List PyStr) :
    ∀ (rs : List BenchResult) (tr : List TrialEvent),
      runAll oracle n files = (some rs, tr) →
      rs.map (fun r => r.name) = files.map splitextRoot := by
  induction files with
  | nil =>
    intro rs tr h
    simp only [runAll, Prod.mk.injEq, Option.some.injEq] at h
    simp [← h.1]
  | cons f fs ih =>
    intro rs tr h
    simp only [runAll] at h
    cases hb : (benchmark_file oracle n f).1 with
    | none => rw [hb] at h; simp at h
    | some r =>
      rw [hb] at h
      cases hrest : (runAll oracle n fs).1 with
      | none => rw [hrest] at h; simp at h
      | some rest =>
        rw [hrest] at h
        simp only [Option.map_some', Prod.mk.injEq, Option.some.injEq] at h
        rw [← h.1]
        have hb' : benchmark_file oracle n f =
            ((benchmark_file oracle n f).1, (benchmark_file oracle n f).2) := rfl
        rw [hb] at hb'
        have hrest' : runAll oracle n fs =
            ((runAll oracle n fs).1, (runAll oracle n fs).2) := rfl
        rw [hrest] at hrest'
        simp only [List.map_cons, List.map]
        rw [benchmark_file_name hb', ih rest _ hrest']

/-! Claim theorems. -/

/-- C1 fails as stated: at candidate mean 1 (which is positive) and reference
mean 0 the raw ratio 0/1 is below 1, yet the comparison produces no verdict at
all - the slower branch raises `ZeroDivisionError` - so the Slower clause of
the claim has no instance here. -/
theorem C1_counterexample :
    (0 : ℚ) < 1 ∧ (0 : ℚ) / 1 < 1 ∧ compare 1 0 = none := by
  refine ⟨by norm_num, by norm_num, ?_⟩
  norm_num [compare, pydiv]

/-- C1, amended to require a positive reference mean as well: `compare` then
returns a result whose stored speedup is the raw ratio reference/candidate;
when the ratio is at least 1 the verdict is Faster and the displayed magnitude
is the ratio itself, and when the ratio is below 1 the verdict is Slower and
the displayed magnitude is the inverse, candidate/reference. -/
theorem C1_compare_branches (cand rf : ℚ) (hc : 0 < cand) (hr : 0 < rf) :
    ∃ out : CompareOut, compare cand rf = some out ∧
      out.speedup = rf / cand ∧
      (1 ≤ rf / cand → out.verdict = Verdict.Faster ∧ out.displayed = rf / cand) ∧
      (rf / cand < 1 → out.verdict = Verdict.Slower ∧ out.displayed = cand / rf) := by
  have hsp : (if cand > 0 then rf / cand else 1) = rf / cand := if_pos hc
  by_cases h : (1 : ℚ) ≤ rf / cand
  · refine ⟨⟨rf / cand, Verdict.Faster, rf / cand⟩, ?_, rfl, fun _ => ⟨rfl, rfl⟩,
      fun hlt => absurd h (not_le.mpr hlt)⟩
    simp only [compare, hsp, if_pos (show rf / cand ≥ 1 from h)]
  · push_neg at h
    refine ⟨⟨rf / cand, Verdict.Slower, cand / rf⟩, ?_, rfl,
      fun hle => absurd hle (not_le.mpr h), fun _ => ⟨rfl, rfl⟩⟩
    have hp : pydiv cand rf = some (cand / rf) := by
      simp [pydiv, ne_of_gt hr]
    simp only [compare, hsp, if_neg (show ¬ rf / cand ≥ 1 from not_le.mpr h), hp]

/-- Witness for C1 at candidate mean 2, reference mean 1: the Slower branch
with an inverted displayed magnitude. -/
theorem C1_compare_branches_witness :
    ∃ out : CompareOut, compare 2 1 = some out ∧
      out.speedup = 1 / 2 ∧
      (1 ≤ (1 : ℚ) / 2 → out.verdict = Verdict.Faster ∧ out.displayed = 1 / 2) ∧
      ((1 : ℚ) / 2 < 1 → out.verdict = Verdict.Slower ∧ out.displayed = 2 / 1) :=
  C1_compare_branches 2 1 (by norm_num) (by norm_num)

/-- C2: a zero candidate mean never reaches the division: the ratio is defined
as exactly 1 and the verdict is Faster, for every reference mean, in particular
at compare(0, 5); and any positive tie compare(x, x) also yields ratio 1 and
verdict Faster. -/
theorem C2_zero_guard_and_tie :
    (∀ rf : ℚ, compare 0 rf = some ⟨1, Verdict.Faster, 1⟩) ∧
    compare 0 5 = some ⟨1, Verdict.Faster, 1⟩ ∧
    (∀ x : ℚ, 0 < x → compare x x = some ⟨1, Verdict.Faster, 1⟩) := by
  have h0 : ∀ rf : ℚ, compare 0 rf = some ⟨1, Verdict.Faster, 1⟩ := by
    intro rf
    simp [compare]
  refine ⟨h0, h0 5, fun x hx => ?_⟩
  have hd : x / x = 1 := div_self (ne_of_gt hx)
  simp [compare, if_pos hx, hd]

/-- Witness for C2 at reference mean 3 and at the tie x equal to 4. -/
theorem C2_zero_guard_and_tie_witness :
    compare 0 3 = some ⟨1, Verdict.Faster, 1⟩ ∧
    compare 4 4 = some ⟨1, Verdict.Faster, 1⟩ :=
  ⟨C2_zero_guard_and_tie.1 3, C2_zero_guard_and_tie.2.2 4 (by norm_num)⟩

/-- C10: in the Slower branch the inverted displayed magnitude divides by the
reference mean with no zero guard: for every positive candidate mean with
reference mean 0, `compare` raises `ZeroDivisionError` and returns no verdict. -/
theorem C10_slower_zero_reference (cand : ℚ) (hc : 0 < cand) :
    compare cand 0 = none := by
  have hsp : (if cand > 0 then (0 : ℚ) / cand else 1) = 0 := by
    rw [if_pos hc, zero_div]
  simp only [compare, hsp]
  norm_num [pydiv]

/-- Witness for C10 at candidate mean 1. -/
theorem C10_slower_zero_reference_witness : compare 1 0 = none :=
  C10_slower_zero_reference 1 (by norm_num)

/-- C3: for every positive iteration count n, one (file, binary) phase runs
exactly n trials, collects exactly n duration samples, and the aggregation
returns their arithmetic mean; with n equal to 1 the returned mean is exactly
the single sample's duration. -/
theorem C3_aggregate_mean (oracle : PyStr → Binary → ℕ → ℚ) (file : PyStr)
    (b : Binary) (n : ℕ) (hn : 0 < n) :
    (runPhase oracle file b n).2.length = n ∧
    (runPhase oracle file b n).1.length = n ∧
    aggregate oracle file b n =
      some ((runPhase oracle file b n).1.sum / (n : ℚ)) ∧
    (n = 1 → aggregate oracle file b n = some (oracle file b 0)) := by
  have hr := runPhase_eq oracle file b n
  have hne : (List.range n).map (oracle file b) ≠ [] := by
    apply List.ne_nil_of_length_pos
    simpa using hn
  refine ⟨?_, ?_, ?_, ?_⟩
  · rw [hr]; simp
  · rw [hr]; simp
  · simp only [aggregate, hr, mean_of_ne_nil hne]
    simp
  · rintro rfl
    simp only [aggregate, hr, mean_of_ne_nil hne]
    have h1 : List.range 1 = [0] := rfl
    simp [h1]

/-- Witness for C3 with a constant 5 ms oracle and a single iteration. -/
theorem C3_aggregate_mean_witness :
    (runPhase (fun _ _ _ => (5 : ℚ)) "a.php".toList Binary.vhp 1).2.length = 1 ∧
    (runPhase (fun _ _ _ => (5 : ℚ)) "a.php".toList Binary.vhp 1).1.length = 1 ∧
    aggregate (fun _ _ _ => (5 : ℚ)) "a.php".toList Binary.vhp 1 =
      some ((runPhase (fun _ _ _ => (5 : ℚ)) "a.php".toList Binary.vhp 1).1.sum /
        ((1 : ℕ) : ℚ)) ∧
    (1 = 1 → aggregate (fun _ _ _ => (5 : ℚ)) "a.php".toList Binary.vhp 1 = some 5) :=
  C3_aggregate_mean (fun _ _ _ => (5 : ℚ)) "a.php".toList Binary.vhp 1 (by norm_num)

/-- C4: whenever the result sequence is non-empty (and the suite-wide candidate
sum is nonzero, so that the division is reached), the summary's overall ratio
is the mean of all reference means divided by the mean of all candidate means;
and on a concrete two-row example that value differs from the mean of the
per-file ratios. -/
theorem C4_overall_ratio :
    (∀ results : List BenchResult, results ≠ [] →
      (results.map (fun r => r.vhp)).sum ≠ 0 →
      ∃ avgV avgP : ℚ,
        mean (results.map (fun r => r.vhp)) = some avgV ∧
        mean (results.map (fun r => r.php)) = some avgP ∧
        print_summary_ratio results = some (avgP / avgV)) ∧
    print_summary_ratio [⟨"a".toList, 1, 2, 2⟩, ⟨"b".toList, 2, 2, 1⟩] ≠
      meanOfRatios [⟨"a".toList, 1, 2, 2⟩, ⟨"b".toList, 2, 2, 1⟩] := by
  constructor
  · intro results hne hsum
    have hv : results.map (fun r => r.vhp) ≠ [] := by
      simpa using hne
    have hp : results.map (fun r => r.php) ≠ [] := by
      simpa using hne
    have hlen : ((results.map (fun r => r.vhp)).length : ℚ) ≠ 0 := by
      have hpos := List.length_pos.mpr hv
      exact_mod_cast Nat.pos_iff_ne_zero.mp hpos
    have havg : (results.map (fun r => r.vhp)).sum /
        ((results.map (fun r => r.vhp)).length : ℚ) ≠ 0 :=
      div_ne_zero hsum hlen
    refine ⟨_, _, mean_of_ne_nil hv, mean_of_ne_nil hp, ?_⟩
    simp [print_summary_ratio, mean_of_ne_nil hv, mean_of_ne_nil hp, pydiv, havg]
    exact ⟨hsum, hne⟩
  · norm_num [print_summary_ratio, meanOfRatios, mean, pydiv]

/-- Witness for C4 on a single result row with candidate mean 1 and reference
mean 2. -/
theorem C4_overall_ratio_witness :
    ∃ avgV avgP : ℚ,
      mean (([⟨"a".toList, 1, 2, 2⟩] : List BenchResult).map (fun r => r.vhp)) =
        some avgV ∧
      mean (([⟨"a".toList, 1, 2, 2⟩] : List BenchResult).map (fun r => r.php)) =
        some avgP ∧
      print_summary_ratio [⟨"a".toList, 1, 2, 2⟩] = some (avgP / avgV) :=
  C4_overall_ratio.1 [⟨"a".toList, 1, 2, 2⟩] (by simp) (by norm_num)

/-- C5 fails on the code: with a single result row whose candidate mean is 0
(all candidate trials measured as 0 ms, reference at 5 ms), the summary's
`avg_php / avg_vhp` divides by zero, so the run dies as an uncaught
`ZeroDivisionError` instead of defining the overall ratio as 1.0. -/
theorem C5_summary_zero_unguarded :
    print_summary_ratio [⟨"a".toList, 0, 5, 1⟩] = none ∧
    main_run (fun _ b _ => match b with | Binary.vhp => 0 | Binary.php => 5) 1
      ["a.php".toList] = RunExit.uncaught := by
  constructor
  · norm_num [print_summary_ratio, mean, pydiv]
  · have h1 : List.range 1 = [0] := rfl
    norm_num [main_run, discover, runAll, benchmark_file, runPhase, mean, compare,
      pydiv, print_summary_ratio, List.insertionSort, List.orderedInsert, h1,
      List.foldl_cons, List.foldl_nil, splitextRoot]

/-- C6: discovery is deterministic - any two filesystem enumerations of the
same files discover the same sequence - and lexicographically sorted; a
successful run's result rows are named after the discovered files in discovery
order; and on the corpus b.php, a.php, c.php the results come out a, b, c. -/
theorem C6_discovery_order :
    (∀ l l' : List PyStr, l.Perm l' → discover l = discover l') ∧
    (∀ l : List PyStr, (discover l).Sorted (· ≤ ·)) ∧
    (∀ (oracle : PyStr → Binary → ℕ → ℚ) (n : ℕ) (listing : List PyStr)
        (rs : List BenchResult) (tr : List TrialEvent),
        runAll oracle n (discover listing) = (some rs, tr) →
        rs.map (fun r => r.name) = (discover listing).map splitextRoot) ∧
    discover ["b.php".toList, "a.php".toList, "c.php".toList] =
      ["a.php".toList, "b.php".toList, "c.php".toList] ∧
    ((runAll (fun _ _ _ => (1 : ℚ)) 1
        (discover ["b.php".toList, "a.php".toList, "c.php".toList])).1).map
      (fun rs => rs.map (fun r => r.name)) =
      some ["a".toList, "b".toList, "c".toList] := by
  refine ⟨?_, ?_, ?_, ?_, ?_⟩
  · intro l l' hperm
    have hf := hperm.filter (fun f => ".php".toList.isSuffixOf f)
    exact List.eq_of_perm_of_sorted
      ((List.perm_insertionSort _ _).trans (hf.trans (List.perm_insertionSort _ _).symm))
      (List.sorted_insertionSort _ _) (List.sorted_insertionSort _ _)
  · intro l
    exact List.sorted_insertionSort _ _
  · intro oracle n listing rs tr h
    exact runAll_names oracle n _ rs tr h
  · decide
  · have h1 : List.range 1 = [0] := rfl
    norm_num [discover, runAll, benchmark_file, runPhase, mean, compare, pydiv,
      List.insertionSort, List.orderedInsert, h1, List.foldl_cons, List.foldl_nil,
      splitextRoot]
    decide

/-- Witness for C6: two opposite enumerations of the same two files discover
identically, and a concrete successful run is named in discovery order. -/
theorem C6_discovery_order_witness :
    discover ["b.php".toList, "a.php".toList] =
      discover ["a.php".toList, "b.php".toList] ∧
    List.map (fun r => r.name)
        [(⟨"a".toList, 1, 1, 1⟩ : BenchResult), ⟨"b".toList, 1, 1, 1⟩] =
      (discover ["b.php".toList, "a.php".toList]).map splitextRoot :=
  ⟨C6_discovery_order.1 _ _ (by decide),
   C6_discovery_order.2.2.1 (fun _ _ _ => (1 : ℚ)) 1 ["b.php".toList, "a.php".toList]
     [⟨"a".toList, 1, 1, 1⟩, ⟨"b".toList, 1, 1, 1⟩]
     [⟨"a.php".toList, Binary.vhp⟩, ⟨"a.php".toList, Binary.php⟩,
      ⟨"b.php".toList, Binary.vhp⟩, ⟨"b.php".toList, Binary.php⟩]
     (by
       have h1 : List.range 1 = [0] := rfl
       norm_num [discover, runAll, benchmark_file, runPhase, mean, compare, pydiv,
         List.insertionSort, List.orderedInsert, h1, List.foldl_cons,
         List.foldl_nil, splitextRoot]
       decide)⟩

/-- C7: a discovery that finds no benchmark files makes `main` print its
diagnostic and exit with status 1 before any measurement, and the summary on an
empty result sequence never computes a mean of nothing: `statistics.mean` has
no value on empty data, so no report value is produced. -/
theorem C7_empty_fail_fast :
    (∀ (oracle : PyStr → Binary → ℕ → ℚ) (n : ℕ) (listing : List PyStr),
        discover listing = [] →
        main_run oracle n listing =
          RunExit.exitFatal "No benchmark files found in bench") ∧
    mean [] = none ∧ print_summary_ratio [] = none := by
  refine ⟨?_, rfl, rfl⟩
  intro oracle n listing h
  simp [main_run, h]

/-- Witness for C7 on a listing holding only a non-benchmark file. -/
theorem C7_empty_fail_fast_witness :
    main_run (fun _ _ _ => (1 : ℚ)) 3 ["x.txt".toList] =
      RunExit.exitFatal "No benchmark files found in bench" :=
  C7_empty_fail_fast.1 (fun _ _ _ => (1 : ℚ)) 3 ["x.txt".toList] (by decide)

/-- C8 states intended behavior the code lacks: with the iteration count
configured to 0 the sample list stays empty, `statistics.mean` raises
`StatisticsError`, and that uncaught exception propagates out of the
aggregation and kills the whole run with a traceback; there is no fail-fast
configuration check. -/
theorem C8_zero_iterations_uncaught :
    aggregate (fun _ _ _ => (1 : ℚ)) "a.php".toList Binary.vhp 0 = none ∧
    main_run (fun _ _ _ => (1 : ℚ)) 0 ["a.php".toList] = RunExit.uncaught := by
  refine ⟨rfl, ?_⟩
  norm_num [main_run, discover, runAll, benchmark_file, runPhase, mean, compare,
    pydiv, print_summary_ratio, List.insertionSort, List.orderedInsert,
    List.range_zero, List.foldl_cons, List.foldl_nil, splitextRoot]

/-- C9: for every file the trial trace of `benchmark_file` is exactly the n
candidate (VHP) trials followed by the n reference (PHP) trials: the two
measurement phases are strictly sequential with no interleaving, and the phase
order is the same - candidate first - for every file in the run. -/
theorem C9_sequential_phases (oracle : PyStr → Binary → ℕ → ℚ) (n : ℕ)
    (file : PyStr) :
    (benchmark_file oracle n file).2 =
      List.replicate n ⟨file, Binary.vhp⟩ ++ List.replicate n ⟨file, Binary.php⟩ := by
  simp only [benchmark_file, runPhase_eq]
  split
  · split <;> rfl
  · rfl

end Bench
